import Mathlib

/-!
Verification of the AmplifyHosting / Repository CDK constructs
(src/src/aws-amplify-hosting.ts) and of the Git Mirror Import Job that the
Repository construct deploys as a Lambda asset. The construct file is
embedded directly; the import job handler itself ships as a bundled asset
(./src/functions/copy-git-repo) whose source is not part of this tree, so
its engine and lifecycle handler are modelled from the specification.
-/

/-- A CloudFormation custom resource as produced by cdk.CustomResource: a
resource type, the provider service token, and named string properties. -/
structure CustomResource where
  resourceType : String
  serviceToken : String
  properties : List (String × String)
deriving Repr, DecidableEq

/-- cdk.Duration.minutes rendered as a number of seconds. -/
def durationMinutesSeconds (n : Nat) : Nat := n * 60

/-- Configuration of the lambda.Function built in the Repository constructor
(aws-amplify-hosting.ts lines 150-176). -/
structure FunctionConfig where
  description : String
  runtime : String
  handler : String
  memorySize : Nat
  ephemeralStorageSizeMiB : Nat
  timeoutSeconds : Nat
deriving Repr, DecidableEq

/-- The importFunction created by the Repository constructor: runtime
python3.9, 2048 MiB memory, 2 GiB ephemeral storage, 3 minute timeout. -/
def importFunctionConfig : FunctionConfig :=
  { description := "Copy Git Repository"
  , runtime := "python3.9"
  , handler := "index.handler"
  , memorySize := 2048
  , ephemeralStorageSizeMiB := 2048
  , timeoutSeconds := durationMinutesSeconds 3 }

/-- The actions granted by codecommit.Repository.grantPullPush: the pull
action together with the push action. -/
def grantPullPushActions : List String :=
  ["codecommit:GitPull", "codecommit:GitPush"]

/-- One resource-affecting step of the Repository constructor body. -/
inductive RepoCtorStep where
  | createImportFunction (cfg : FunctionConfig)
  | grant (grantee : String) (actions : List String)
  | createImportProvider (onEventHandler : String)
deriving Repr, DecidableEq

/-- The Repository constructor body (aws-amplify-hosting.ts lines 150-179) as
the ordered trace of its steps: create the import function, grant it pull and
push on the repository, then create the import provider over it. -/
def repositoryCtorSteps : List RepoCtorStep :=
  [ .createImportFunction importFunctionConfig
  , .grant "ImportFunction" grantPullPushActions
  , .createImportProvider "ImportFunction" ]

/-- The codecommit Repository construct as consumed by importFromUrl: its GRC
clone url and the service token of its import provider. -/
structure Repository where
  repositoryCloneUrlGrc : String
  importProviderServiceToken : String
deriving Repr, DecidableEq

/-- Repository.importFromUrl (aws-amplify-hosting.ts lines 182-193): creates
a Custom::RepoImportJob custom resource carrying the four import
properties. -/
def Repository.importFromUrl (repo : Repository)
    (targetBranch sourceRepoUrlHttp sourceBranch : String) : CustomResource :=
  { resourceType := "Custom::RepoImportJob"
  , serviceToken := repo.importProviderServiceToken
  , properties :=
      [ ("SourceRepo", sourceRepoUrlHttp)
      , ("SourceBranch", sourceBranch)
      , ("TargetRepo", repo.repositoryCloneUrlGrc)
      , ("TargetBranch", targetBranch) ] }

/-- Props of the AmplifyHosting construct (aws-amplify-hosting.ts lines
10-18). -/
structure AmplifyHostingProps where
  sourceRepo : String
  sourceBranch : String
  appRoot : String
  environmentVariables : List (String × String)
deriving Repr, DecidableEq

/-- The props passed to app.addBranch for the production branch
(aws-amplify-hosting.ts lines 103-110). -/
structure BranchProps where
  branchName : String
  stage : String
  autoBuild : Bool
deriving Repr, DecidableEq

/-- The slash character, code point 47. -/
def slashChar : Char := Char.ofNat 47

/-- JavaScript String.prototype.split with a one-character separator, on the
character list of a string: yields at least one (possibly empty) segment,
with one extra segment per separator occurrence. -/
def jsSplitAux (sep : Char) : List Char → List (List Char)
  | [] => [[]]
  | a :: rest =>
      if a = sep then [] :: jsSplitAux sep rest
      else
        match jsSplitAux sep rest with
        | [] => [[a]]
        | h :: t => (a :: h) :: t

/-- JavaScript s.split(sep) for a single-character separator. -/
def jsSplit (sep : Char) (s : String) : List String :=
  (jsSplitAux sep s.data).map (fun l => String.mk l)

/-- JavaScript Array.prototype.join(sep). -/
def jsJoin (sep : String) : List String → String
  | [] => ""
  | [a] => a
  | a :: b :: rest => a ++ sep ++ jsJoin sep (b :: rest)

/-- The value of NEXT_PRIVATE_OUTPUT_TRACE_ROOT computed at
aws-amplify-hosting.ts line 94: appRoot split on the slash, every segment
replaced by a double dot, joined with the slash, with a final slash
appended. -/
def outputFileTracingRoot (appRoot : String) : String :=
  jsJoin "/" ((jsSplit slashChar appRoot).map (fun _ => "..")) ++ "/"

/-- A string repeated a given number of times, used to state the intended
shape of the trace root value. -/
def repeatString : Nat → String → String
  | 0, _ => ""
  | n + 1, s => s ++ repeatString n s

/-- Result of elaborating the AmplifyHosting constructor
(aws-amplify-hosting.ts lines 25-140): the created repo import job, the
environment variables added to the app, the production branch props, the
explicit construct-tree dependency edges added, and the production branch
url. -/
structure AmplifyHostingModel where
  repository : Repository
  repoImportJob : CustomResource
  environment : List (String × String)
  prodBranchProps : BranchProps
  dependencies : List (String × String)
  prodBranchUrl : String
deriving Repr, DecidableEq

/-- The AmplifyHosting constructor as a function of its props, with the
construct-environment data (the repository construct and the resolved app
default domain) taken as parameters. The dependency edge records the call
repoImportJob.node.addDependency on the defaultChild CfnBranch of the
production branch (line 113). -/
def amplifyHosting (repo : Repository) (defaultDomain : String)
    (props : AmplifyHostingProps) : AmplifyHostingModel :=
  let repoImportJob := repo.importFromUrl "main" props.sourceRepo props.sourceBranch
  let prodBranchProps : BranchProps :=
    { branchName := "main", stage := "PRODUCTION", autoBuild := true }
  { repository := repo
  , repoImportJob := repoImportJob
  , environment :=
      [ ("NEXT_PRIVATE_OUTPUT_TRACE_ROOT", outputFileTracingRoot props.appRoot)
      , ("AMPLIFY_MONOREPO_APP_ROOT", props.appRoot)
      , ("AMPLIFY_DIFF_DEPLOY", "false") ]
  , prodBranchProps := prodBranchProps
  , dependencies := [("RepoImportJob", "ProdBranchCfnBranch")]
  , prodBranchUrl := "https://" ++ prodBranchProps.branchName ++ "." ++ defaultDomain }

/-- Modelled from the spec: a Git commit reference. -/
abbrev CommitRef := String

/-- Modelled from the spec (section 3): the import request supplied by the
orchestrator as event properties. -/
structure ImportRequest where
  sourceRepoUrl : String
  sourceBranch : String
  targetRepoUrl : String
  targetBranch : String
deriving Repr, DecidableEq

/-- Modelled from the spec (section 4.2): the engine import mode. -/
inductive Mode where
  | full
  | reconcile
deriving Repr, DecidableEq

/-- Modelled from the spec (section 7): the import error taxonomy. -/
inductive ImportError where
  | authenticationFailure
  | networkFailure
  | sourceNotFound
  | targetUnreachable
  | transferVerificationFailure
  | timeout
  | internalError
deriving Repr, DecidableEq

/-- Modelled from the spec (section 4.3): the behaviour of the external git
endpoints for one invocation, as observed through the credentialed git
client wrapper. sourceHead is the source branch head (none when the source
repo or branch is unreachable or absent); cloneError and pushError say
whether the clone and the push steps fail and with which error; raceHead is
the head a racing concurrent push leaves on the target right after ours
lands (none when there is no race). -/
structure GitEnv where
  sourceHead : Option CommitRef
  cloneError : Option ImportError
  pushError : Option ImportError
  raceHead : Option CommitRef
deriving Repr, DecidableEq

/-- Modelled from the spec (section 3): the durable state is the target
branch head commit itself (none when the branch does not exist yet). -/
structure TargetState where
  head : Option CommitRef
deriving Repr, DecidableEq

/-- Modelled from the spec (section 8): counters of the data-moving git
operations performed by one invocation. -/
structure Trace where
  fetches : Nat
  clones : Nat
  pushes : Nat
deriving Repr, DecidableEq

/-- The empty operation trace. -/
def Trace.zero : Trace := { fetches := 0, clones := 0, pushes := 0 }

/-- Modelled from the spec (section 4.2): the outcome of one Mirror Job
Engine run: the target state after the run, the operations performed, and
the returned commit reference or import error. -/
structure RunResult where
  target : TargetState
  trace : Trace
  result : Except ImportError CommitRef
deriving Repr

/-- Modelled from the spec (section 4.2, the Mirror Job Engine of the Lambda
asset ./src/functions/copy-git-repo, whose source is not in this tree):
fetch the source branch head; in Reconcile mode, when the target head
already equals the fetched head, skip the transfer and return the existing
commit; otherwise clone and push, the push either landing in full or being
rejected with the target left unchanged; finally verify that the observed
target head equals the fetched source head. -/
def MirrorJobEngine.run (env : GitEnv) (t : TargetState) (req : ImportRequest)
    (mode : Mode) : RunResult :=
  match env.sourceHead with
  | none =>
      { target := t
      , trace := { fetches := 1, clones := 0, pushes := 0 }
      , result := .error .sourceNotFound }
  | some srcHead =>
      if mode = .reconcile ∧ t.head = some srcHead then
        { target := t
        , trace := { fetches := 1, clones := 0, pushes := 0 }
        , result := .ok srcHead }
      else
        match env.cloneError with
        | some e =>
            { target := t
            , trace := { fetches := 1, clones := 1, pushes := 0 }
            , result := .error e }
        | none =>
            match env.pushError with
            | some e =>
                { target := t
                , trace := { fetches := 1, clones := 1, pushes := 1 }
                , result := .error e }
            | none =>
                let t2 : TargetState := { head := some (env.raceHead.getD srcHead) }
                if t2.head = some srcHead then
                  { target := t2
                  , trace := { fetches := 1, clones := 1, pushes := 1 }
                  , result := .ok srcHead }
                else
                  { target := t2
                  , trace := { fetches := 1, clones := 1, pushes := 1 }
                  , result := .error .transferVerificationFailure }

/-- Modelled from the spec (section 6): the raw ResourceProperties of an
inbound event, each field possibly missing. -/
structure RawProps where
  sourceRepo : Option String
  sourceBranch : Option String
  targetRepo : Option String
  targetBranch : Option String
deriving Repr, DecidableEq

/-- Modelled from the spec (section 3): the lifecycle event type. -/
inductive RequestType where
  | create
  | update
  | delete
deriving Repr, DecidableEq

/-- Modelled from the spec (sections 3 and 6): an orchestrator lifecycle
event. -/
structure LifecycleEvent where
  requestType : RequestType
  resourceProperties : RawProps
  physicalResourceId : Option String
deriving Repr, DecidableEq

/-- Modelled from the spec (section 3): a terminal outcome. -/
inductive Outcome where
  | success
  | failed
deriving Repr, DecidableEq

/-- Modelled from the spec (sections 3 and 6): the terminal completion
signal sent back to the orchestrator. -/
structure CompletionSignal where
  outcome : Outcome
  physicalResourceId : String
  reason : Option String
  data : List (String × String)
deriving Repr, DecidableEq

/-- Modelled from the spec (section 4.1): validate the raw properties into
an ImportRequest, reporting the first missing required property. -/
def parseImportRequest (p : RawProps) : Except String ImportRequest :=
  match p.sourceRepo with
  | none => .error "Missing required property SourceRepo"
  | some sr =>
      match p.sourceBranch with
      | none => .error "Missing required property SourceBranch"
      | some sb =>
          match p.targetRepo with
          | none => .error "Missing required property TargetRepo"
          | some tr =>
              match p.targetBranch with
              | none => .error "Missing required property TargetBranch"
              | some tb =>
                  .ok { sourceRepoUrl := sr, sourceBranch := sb
                      , targetRepoUrl := tr, targetBranch := tb }

/-- Modelled from the spec (sections 3 and 4.1): the physical resource id is
derived deterministically from the target branch identity. -/
def derivePhysicalId (req : ImportRequest) : String :=
  req.targetRepoUrl ++ "#" ++ req.targetBranch

/-- Modelled from the spec (section 7): the human-readable reason attached
to a Failed signal for each import error. -/
def ImportError.describe : ImportError → String
  | .authenticationFailure => "AuthenticationFailure"
  | .networkFailure => "NetworkFailure"
  | .sourceNotFound => "SourceNotFound"
  | .targetUnreachable => "TargetUnreachable"
  | .transferVerificationFailure => "TransferVerificationFailure"
  | .timeout => "Timeout"
  | .internalError => "InternalError"

/-- Modelled from the spec (section 4.1, the Lifecycle Event Handler of the
Lambda asset, whose source is not in this tree): Create validates the
properties and runs a full import; Update reuses the supplied physical id
and runs a reconcile; Delete returns Success immediately with the supplied
physical id and performs no git operation at all; every malformed input
yields a Failed signal with a reason instead of an unanswered invocation.
The function returns the target state after the invocation, the operation
trace, and the completion signal. -/
def LifecycleEventHandler.handle (env : GitEnv) (t : TargetState)
    (ev : LifecycleEvent) : TargetState × Trace × CompletionSignal :=
  match ev.requestType with
  | .delete =>
      match ev.physicalResourceId with
      | some pid =>
          (t, Trace.zero,
            { outcome := .success, physicalResourceId := pid
            , reason := none, data := [] })
      | none =>
          (t, Trace.zero,
            { outcome := .failed, physicalResourceId := "NONE"
            , reason := some "Missing PhysicalResourceId on Delete", data := [] })
  | .create =>
      match parseImportRequest ev.resourceProperties with
      | .error msg =>
          (t, Trace.zero,
            { outcome := .failed, physicalResourceId := "NONE"
            , reason := some msg, data := [] })
      | .ok req =>
          let r := MirrorJobEngine.run env t req .full
          match r.result with
          | .ok c =>
              (r.target, r.trace,
                { outcome := .success, physicalResourceId := derivePhysicalId req
                , reason := none, data := [("CommitRef", c)] })
          | .error e =>
              (r.target, r.trace,
                { outcome := .failed, physicalResourceId := derivePhysicalId req
                , reason := some (ImportError.describe e), data := [] })
  | .update =>
      match ev.physicalResourceId with
      | none =>
          (t, Trace.zero,
            { outcome := .failed, physicalResourceId := "NONE"
            , reason := some "Missing PhysicalResourceId on Update", data := [] })
      | some pid =>
          match parseImportRequest ev.resourceProperties with
          | .error msg =>
              (t, Trace.zero,
                { outcome := .failed, physicalResourceId := pid
                , reason := some msg, data := [] })
          | .ok req =>
              let r := MirrorJobEngine.run env t req .reconcile
              match r.result with
              | .ok c =>
                  (r.target, r.trace,
                    { outcome := .success, physicalResourceId := pid
                    , reason := none, data := [("CommitRef", c)] })
              | .error e =>
                  (r.target, r.trace,
                    { outcome := .failed, physicalResourceId := pid
                    , reason := some (ImportError.describe e), data := [] })

/-- Concrete environment for the idempotence witness: source head commitA,
no failures, no race. -/
def c2Env : GitEnv :=
  { sourceHead := some "commitA", cloneError := none
  , pushError := none, raceHead := none }

/-- Concrete target already synced at commitA. -/
def c2Target : TargetState := { head := some "commitA" }

/-- A concrete import request. -/
def c2Req : ImportRequest :=
  { sourceRepoUrl := "https://github.com/aws-samples/app.git"
  , sourceBranch := "dev"
  , targetRepoUrl := "codecommit::us-east-1://AppRepo"
  , targetBranch := "main" }

/-- Concrete environment for the atomic-failure witness: the push step is
rejected with TargetUnreachable. -/
def c3Env : GitEnv :=
  { sourceHead := some "commitB", cloneError := none
  , pushError := some .targetUnreachable, raceHead := none }

/-- Concrete pre-invocation target for the atomic-failure witness. -/
def c3Target : TargetState := { head := some "commitA" }

/-- Concrete environment with an unreachable source, for the Delete
witness. -/
def c4Env : GitEnv :=
  { sourceHead := none, cloneError := none, pushError := none, raceHead := none }

/-- A concrete Delete event with a valid physical id. -/
def c4Event : LifecycleEvent :=
  { requestType := .delete
  , resourceProperties :=
      { sourceRepo := none, sourceBranch := none
      , targetRepo := none, targetBranch := none }
  , physicalResourceId := some "AppRepo#main" }

/-- A concrete Create event whose properties miss SourceBranch. -/
def c5Event : LifecycleEvent :=
  { requestType := .create
  , resourceProperties :=
      { sourceRepo := some "https://github.com/aws-samples/app.git"
      , sourceBranch := none
      , targetRepo := some "codecommit::us-east-1://AppRepo"
      , targetBranch := some "main" }
  , physicalResourceId := none }

/-- A successful run reveals the fetched source head: when the engine returns
commit c, the source head was some c and the target head after the run is
some c. -/
lemma run_ok_head (env : GitEnv) (t : TargetState) (req : ImportRequest)
    (mode : Mode) (c : CommitRef)
    (h : (MirrorJobEngine.run env t req mode).result = .ok c) :
    env.sourceHead = some c ∧
      (MirrorJobEngine.run env t req mode).target.head = some c := by
  obtain ⟨sh, ce, pe, rh⟩ := env
  cases sh with
  | none => simp [MirrorJobEngine.run] at h
  | some s =>
      by_cases hc : mode = .reconcile ∧ t.head = some s
      · simp [MirrorJobEngine.run, hc] at h ⊢
        subst h
        rfl
      · cases ce with
        | some e => simp [MirrorJobEngine.run, hc] at h
        | none =>
            cases pe with
            | some e => simp [MirrorJobEngine.run, hc] at h
            | none =>
                by_cases hv : rh.getD s = s
                · simp [MirrorJobEngine.run, hc, hv] at h ⊢
                  subst h
                  rfl
                · simp [MirrorJobEngine.run, hc, hv] at h

/-- A reconcile run on a target already at the source head is a no-op
returning the existing commit. -/
lemma run_reconcile_synced (env : GitEnv) (t : TargetState) (req : ImportRequest)
    (c : CommitRef) (hs : env.sourceHead = some c) (ht : t.head = some c) :
    (MirrorJobEngine.run env t req .reconcile).trace.clones = 0 ∧
    (MirrorJobEngine.run env t req .reconcile).trace.pushes = 0 ∧
    (MirrorJobEngine.run env t req .reconcile).result = .ok c := by
  obtain ⟨sh, ce, pe, rh⟩ := env
  simp only at hs
  subst hs
  simp [MirrorJobEngine.run, ht]

/-- The split of a string always has at least one segment. -/
lemma jsSplitAux_ne_nil (sep : Char) (l : List Char) : jsSplitAux sep l ≠ [] := by
  induction l with
  | nil => simp [jsSplitAux]
  | cons a rest ih =>
      simp only [jsSplitAux]
      split
      · simp
      · split
        · simp
        · simp

/-- Joining n + 1 double dots with slashes and appending a final slash gives
the string dot-dot-slash repeated n + 1 times. -/
lemma jsJoin_dots (n : Nat) :
    jsJoin "/" (List.replicate (n + 1) "..") ++ "/" = repeatString (n + 1) "../" := by
  induction n with
  | zero => rfl
  | succ m ih =>
      rw [List.replicate_succ, List.replicate_succ]
      show (".." ++ "/" ++ jsJoin "/" (".." :: List.replicate m "..")) ++ "/"
          = repeatString (m + 2) "../"
      rw [← List.replicate_succ, String.append_assoc, String.append_assoc, ih]
      rfl

/-- The trace root value is the parent-directory step repeated once per
slash-separated segment of appRoot. -/
lemma outputFileTracingRoot_eq (s : String) :
    outputFileTracingRoot s = repeatString (jsSplit slashChar s).length "../" := by
  unfold outputFileTracingRoot jsSplit
  cases h : jsSplitAux slashChar s.data with
  | nil => exact absurd h (jsSplitAux_ne_nil _ _)
  | cons a l =>
      simp only [List.map_map, Function.comp_def, List.length_map, List.map_const',
        List.length_cons]
      exact jsJoin_dots l.length

/-- C1: every call of importFromUrl builds a custom resource of type
Custom::RepoImportJob whose properties are exactly SourceRepo equal to the
source url, SourceBranch equal to the source branch, TargetRepo equal to
the repository GRC clone url, and TargetBranch equal to the target branch,
under the inbound event property names. -/
theorem importFromUrl_shape (repo : Repository)
    (targetBranch sourceRepoUrlHttp sourceBranch : String) :
    (repo.importFromUrl targetBranch sourceRepoUrlHttp sourceBranch).resourceType
        = "Custom::RepoImportJob" ∧
    (repo.importFromUrl targetBranch sourceRepoUrlHttp sourceBranch).properties
        = [ ("SourceRepo", sourceRepoUrlHttp)
          , ("SourceBranch", sourceBranch)
          , ("TargetRepo", repo.repositoryCloneUrlGrc)
          , ("TargetBranch", targetBranch) ] :=
  ⟨rfl, rfl⟩

/-- C2: when a Reconcile run returns commit c, a second Reconcile run against
the resulting target state with the unchanged source performs no clone and
no push and returns the same commit c. -/
theorem reconcile_idempotent (env : GitEnv) (t : TargetState) (req : ImportRequest)
    (c : CommitRef)
    (h : (MirrorJobEngine.run env t req .reconcile).result = .ok c) :
    (MirrorJobEngine.run env (MirrorJobEngine.run env t req .reconcile).target
        req .reconcile).trace.clones = 0 ∧
    (MirrorJobEngine.run env (MirrorJobEngine.run env t req .reconcile).target
        req .reconcile).trace.pushes = 0 ∧
    (MirrorJobEngine.run env (MirrorJobEngine.run env t req .reconcile).target
        req .reconcile).result = .ok c := by
  obtain ⟨hs, hh⟩ := run_ok_head env t req .reconcile c h
  exact run_reconcile_synced env _ req c hs hh

/-- Witness for C2 at a concrete synced environment. -/
theorem reconcile_idempotent_witness :
    (MirrorJobEngine.run c2Env c2Target c2Req .reconcile).result = .ok "commitA" ∧
    ((MirrorJobEngine.run c2Env (MirrorJobEngine.run c2Env c2Target c2Req .reconcile).target
        c2Req .reconcile).trace.clones = 0 ∧
     (MirrorJobEngine.run c2Env (MirrorJobEngine.run c2Env c2Target c2Req .reconcile).target
        c2Req .reconcile).trace.pushes = 0 ∧
     (MirrorJobEngine.run c2Env (MirrorJobEngine.run c2Env c2Target c2Req .reconcile).target
        c2Req .reconcile).result = .ok "commitA") :=
  ⟨rfl, reconcile_idempotent c2Env c2Target c2Req "commitA" rfl⟩

/-- C3: when the clone step succeeds and the push step fails, on any run that
actually performed the transfer the target head keeps its pre-invocation
value, the result is the push error, and the run never reports success. -/
theorem push_failure_atomic (env : GitEnv) (t : TargetState) (req : ImportRequest)
    (mode : Mode) (e : ImportError)
    (hclone : env.cloneError = none)
    (hpush : env.pushError = some e)
    (htransfer : 0 < (MirrorJobEngine.run env t req mode).trace.clones) :
    (MirrorJobEngine.run env t req mode).target.head = t.head ∧
    (MirrorJobEngine.run env t req mode).result = .error e ∧
    ∀ c, (MirrorJobEngine.run env t req mode).result ≠ .ok c := by
  obtain ⟨sh, ce, pe, rh⟩ := env
  simp only at hclone hpush
  subst hclone
  subst hpush
  cases sh with
  | none => simp [MirrorJobEngine.run] at htransfer
  | some s =>
      by_cases hc : mode = .reconcile ∧ t.head = some s
      · simp [MirrorJobEngine.run, hc] at htransfer
      · simp [MirrorJobEngine.run, hc]

/-- Witness for C3 at a concrete environment whose push is rejected. -/
theorem push_failure_atomic_witness :
    c3Env.cloneError = none ∧
    c3Env.pushError = some .targetUnreachable ∧
    0 < (MirrorJobEngine.run c3Env c3Target c2Req .full).trace.clones ∧
    ((MirrorJobEngine.run c3Env c3Target c2Req .full).target.head = c3Target.head ∧
     (MirrorJobEngine.run c3Env c3Target c2Req .full).result = .error .targetUnreachable ∧
     ∀ c, (MirrorJobEngine.run c3Env c3Target c2Req .full).result ≠ .ok c) :=
  ⟨rfl, rfl, by decide,
    push_failure_atomic c3Env c3Target c2Req .full .targetUnreachable rfl rfl (by decide)⟩

/-- C4: a Delete event carrying a physical id returns Success with that same
id, leaves the target untouched and performs no git operation at all — for
every environment, in particular one whose source is unreachable. -/
theorem delete_noop (env : GitEnv) (t : TargetState) (ev : LifecycleEvent)
    (pid : String)
    (htype : ev.requestType = .delete)
    (hpid : ev.physicalResourceId = some pid) :
    (LifecycleEventHandler.handle env t ev).2.2.outcome = .success ∧
    (LifecycleEventHandler.handle env t ev).2.2.physicalResourceId = pid ∧
    (LifecycleEventHandler.handle env t ev).2.1 = Trace.zero ∧
    (LifecycleEventHandler.handle env t ev).1 = t := by
  obtain ⟨rt, props, ppid⟩ := ev
  simp only at htype hpid
  subst htype
  subst hpid
  simp [LifecycleEventHandler.handle]

/-- Witness for C4 at a concrete Delete event and an unreachable source. -/
theorem delete_noop_witness :
    c4Event.requestType = .delete ∧
    c4Event.physicalResourceId = some "AppRepo#main" ∧
    ((LifecycleEventHandler.handle c4Env c3Target c4Event).2.2.outcome = .success ∧
     (LifecycleEventHandler.handle c4Env c3Target c4Event).2.2.physicalResourceId
        = "AppRepo#main" ∧
     (LifecycleEventHandler.handle c4Env c3Target c4Event).2.1 = Trace.zero ∧
     (LifecycleEventHandler.handle c4Env c3Target c4Event).1 = c3Target) :=
  ⟨rfl, rfl, delete_noop c4Env c3Target c4Event "AppRepo#main" rfl rfl⟩

/-- C5: a Create event whose properties miss SourceBranch — or any other
required ImportRequest field — produces a Failed signal carrying a reason
and never a Success; the handler is a total function, so the invocation is
always answered with a terminal signal. -/
theorem malformed_create_failed (env : GitEnv) (t : TargetState)
    (ev : LifecycleEvent)
    (htype : ev.requestType = .create)
    (hmiss : ev.resourceProperties.sourceRepo = none ∨
             ev.resourceProperties.sourceBranch = none ∨
             ev.resourceProperties.targetRepo = none ∨
             ev.resourceProperties.targetBranch = none) :
    (LifecycleEventHandler.handle env t ev).2.2.outcome = .failed ∧
    (LifecycleEventHandler.handle env t ev).2.2.reason.isSome = true ∧
    (LifecycleEventHandler.handle env t ev).2.2.outcome ≠ .success := by
  obtain ⟨rt, props, ppid⟩ := ev
  obtain ⟨psr, psb, ptr, ptb⟩ := props
  simp only at htype hmiss
  subst htype
  cases psr with
  | none => simp [LifecycleEventHandler.handle, parseImportRequest]
  | some sr =>
      cases psb with
      | none => simp [LifecycleEventHandler.handle, parseImportRequest]
      | some sb =>
          cases ptr with
          | none => simp [LifecycleEventHandler.handle, parseImportRequest]
          | some tr =>
              cases ptb with
              | none => simp [LifecycleEventHandler.handle, parseImportRequest]
              | some tb => simp at hmiss

/-- Witness for C5 at a concrete Create event missing SourceBranch. -/
theorem malformed_create_failed_witness :
    c5Event.requestType = .create ∧
    (c5Event.resourceProperties.sourceRepo = none ∨
     c5Event.resourceProperties.sourceBranch = none ∨
     c5Event.resourceProperties.targetRepo = none ∨
     c5Event.resourceProperties.targetBranch = none) ∧
    ((LifecycleEventHandler.handle c4Env c3Target c5Event).2.2.outcome = .failed ∧
     (LifecycleEventHandler.handle c4Env c3Target c5Event).2.2.reason.isSome = true ∧
     (LifecycleEventHandler.handle c4Env c3Target c5Event).2.2.outcome ≠ .success) :=
  ⟨rfl, Or.inr (Or.inl rfl),
    malformed_create_failed c4Env c3Target c5Event rfl (Or.inr (Or.inl rfl))⟩

/-- C6: the import function is configured with a timeout of 3 minutes, a
bounded invocation budget of 180 seconds. -/
theorem importFunction_timeout :
    importFunctionConfig.timeoutSeconds = durationMinutesSeconds 3 ∧
    importFunctionConfig.timeoutSeconds = 180 :=
  ⟨rfl, rfl⟩

/-- C7: in the Repository constructor trace, the step granting the import
function both the pull action and the push action on the repository occurs
strictly before the step creating the import provider. -/
theorem grantPullPush_before_provider :
    ∃ i j, i < j ∧
      repositoryCtorSteps.get? i
        = some (.grant "ImportFunction" grantPullPushActions) ∧
      "codecommit:GitPull" ∈ grantPullPushActions ∧
      "codecommit:GitPush" ∈ grantPullPushActions ∧
      repositoryCtorSteps.get? j = some (.createImportProvider "ImportFunction") :=
  ⟨1, 2, by decide, rfl, by decide, by decide, rfl⟩

/-- C8: for every props value, the import job created by the AmplifyHosting
constructor has TargetBranch main and the production branch is named main,
independently of the supplied sourceBranch. -/
theorem targetBranch_fixed_main (repo : Repository) (defaultDomain : String)
    (props : AmplifyHostingProps) :
    ((amplifyHosting repo defaultDomain props).repoImportJob.properties.lookup
        "TargetBranch") = some "main" ∧
    (amplifyHosting repo defaultDomain props).prodBranchProps.branchName = "main" :=
  ⟨rfl, rfl⟩

/-- C9: the AmplifyHosting constructor adds an explicit dependency edge from
the repo import job to the CfnBranch resource underlying the production
branch. -/
theorem importJob_depends_on_prodBranch (repo : Repository) (defaultDomain : String)
    (props : AmplifyHostingProps) :
    ("RepoImportJob", "ProdBranchCfnBranch")
        ∈ (amplifyHosting repo defaultDomain props).dependencies :=
  List.Mem.head _

/-- C10: the NEXT_PRIVATE_OUTPUT_TRACE_ROOT variable added to the app equals
the parent-directory step repeated once per slash-separated segment of
appRoot, and the empty appRoot yields exactly one step. -/
theorem trace_root_env (repo : Repository) (defaultDomain : String)
    (props : AmplifyHostingProps) :
    ((amplifyHosting repo defaultDomain props).environment.lookup
        "NEXT_PRIVATE_OUTPUT_TRACE_ROOT")
      = some (repeatString (jsSplit slashChar props.appRoot).length "../") ∧
    outputFileTracingRoot "" = "../" := by
  refine ⟨?_, rfl⟩
  show some (outputFileTracingRoot props.appRoot) = _
  rw [outputFileTracingRoot_eq]
